import Mathlib

/-!
Verification of the Social Security projection core (`ss.py`).

The embedding below translates the source functions one-for-one:
calendar dates become a `Date` structure over `ℤ`, Python `date`
comparison becomes lexicographic comparison, Python floats become exact
rationals `ℚ` (the spec mandates exact rational constants), and the
pandas row dicts become association lists in insertion order.
-/

/-- Calendar date: year, month, day (as in Python `datetime.date`, but
with unbounded integer fields; `Valid` states the calendar-range side
conditions that Python enforces at construction). -/
structure Date where
  year : ℤ
  month : ℤ
  day : ℤ
  deriving DecidableEq, Repr

instance : Inhabited Date := ⟨⟨1, 1, 1⟩⟩

/-- `calendar.isleap`. -/
def isleap (y : ℤ) : Bool :=
  (y % 4 == 0) && (!(y % 100 == 0) || (y % 400 == 0))

/-- `calendar.monthrange(y, m)[1]`: number of days in the month. -/
def monthLen (y m : ℤ) : ℤ :=
  if m = 2 then (if isleap y then 29 else 28)
  else if m = 4 ∨ m = 6 ∨ m = 9 ∨ m = 11 then 30
  else 31

/-- The calendar-validity invariant of a Python `date`. -/
def Date.Valid (d : Date) : Prop :=
  1 ≤ d.month ∧ d.month ≤ 12 ∧ 1 ≤ d.day ∧ d.day ≤ monthLen d.year d.month

instance (d : Date) : Decidable d.Valid := by
  unfold Date.Valid
  infer_instance

/-- Python `date` `<` (lexicographic on (year, month, day)). -/
def dateLt (a b : Date) : Bool :=
  decide (a.year < b.year ∨ (a.year = b.year ∧
    (a.month < b.month ∨ (a.month = b.month ∧ a.day < b.day))))

/-- Python `date` `<=`. -/
def dateLe (a b : Date) : Bool :=
  !(dateLt b a)

/-- Python `max(a, b)` on dates (returns `a` on ties). -/
def dmax (a b : Date) : Date :=
  if dateLt a b then b else a

/-- Python `min(a, b)` on dates (returns `a` on ties). -/
def dmin (a b : Date) : Date :=
  if dateLt b a then b else a

/-- `safe_eol_date`: the birthday in year `dob.year + life_age`, with the
day clamped to the month length when the literal day does not exist
(the `try/except ValueError` branch of the source). -/
def safe_eol_date (dob : Date) (life_age : ℤ) : Date :=
  let y := dob.year + life_age
  if monthLen y dob.month < dob.day then ⟨y, dob.month, monthLen y dob.month⟩
  else ⟨y, dob.month, dob.day⟩

/-- `fra_for_birth_year`. -/
def fra_for_birth_year (y : ℤ) : ℤ × ℤ :=
  if y ≤ 1937 then (65, 0)
  else if 1938 ≤ y ∧ y ≤ 1942 then (65, (y - 1937) * 2)
  else if 1943 ≤ y ∧ y ≤ 1954 then (66, 0)
  else if 1955 ≤ y ∧ y ≤ 1959 then (66, (y - 1954) * 2)
  else if 1960 ≤ y then (67, 0)
  else (67, 0)

/-- `months_between`. -/
def months_between (yrs_a mos_a yrs_b mos_b : ℤ) : ℤ :=
  (yrs_a * 12 + mos_a) - (yrs_b * 12 + mos_b)

/-- `retirement_adjustment` (exact rationals in place of floats). -/
def retirement_adjustment (pia : ℚ) (months_from_fra : ℤ) : ℚ :=
  if months_from_fra = 0 then pia
  else if months_from_fra < 0 then
    let m := -months_from_fra
    let first := min m 36
    let extra := max (m - 36) 0
    let reduction : ℚ := (first : ℚ) * (5 / 900) + (extra : ℚ) * (5 / 1200)
    pia * max 0 (1 - reduction)
  else pia * (1 + (2 / 300) * ((min months_from_fra (12 * 4) : ℤ) : ℚ))

/-- `spousal_base`. -/
def spousal_base (pia_worker : ℚ) : ℚ :=
  (1 / 2) * pia_worker

/-- `spousal_reduction`. -/
def spousal_reduction (months_early : ℤ) : ℚ :=
  if months_early ≤ 0 then 1
  else
    let first := min months_early 36
    let extra := max (months_early - 36) 0
    max 0 (1 - ((first : ℚ) * (25 / 3600) + (extra : ℚ) * (5 / 1200)))

/-- `survivor_reduction` (0.715 = 143/200, 0.00396 = 99/25000). -/
def survivor_reduction (months_early : ℤ) : ℚ :=
  if months_early ≤ 0 then 1
  else max (715 / 1000) (1 - (months_early : ℚ) * (396 / 100000))

/-- `add_years_months`: month arithmetic with day clamped to the target
month's length. -/
def add_years_months (d : Date) (y m : ℤ) : Date :=
  let y_total := d.year + y + (d.month - 1 + m) / 12
  let m_total := (d.month - 1 + m) % 12 + 1
  ⟨y_total, m_total, min d.day (monthLen y_total m_total)⟩

/-- `first_of_month`. -/
def first_of_month (d : Date) : Date :=
  ⟨d.year, d.month, 1⟩

/-- `add_months`. -/
def add_months (d : Date) (m : ℤ) : Date :=
  let y_total := d.year + (d.month - 1 + m) / 12
  let m_total := (d.month - 1 + m) % 12 + 1
  ⟨y_total, m_total, min d.day (monthLen y_total m_total)⟩

/-- `age_ym`: whole (years, months) elapsed from `dob` to `asof`, each
component floored at zero. -/
def age_ym (dob asof : Date) : ℤ × ℤ :=
  let y := asof.year - dob.year
  let m := asof.month - dob.month
  let m := if asof.day < dob.day then m - 1 else m
  let p : ℤ × ℤ := if m < 0 then (y - 1, m + 12) else (y, m)
  (max p.1 0, max p.2 0)

/-- `months_between_firsts`. -/
def months_between_firsts (a b : Date) : ℤ :=
  months_between a.year a.month b.year b.month

/-- `clamp_months_in_year`: whole months in the overlap of the two
half-open month windows, floored at zero. -/
def clamp_months_in_year (start_month end_month_excl win_start win_end_excl : Date) : ℤ :=
  let s := first_of_month (dmax start_month win_start)
  let e := first_of_month (dmin end_month_excl win_end_excl)
  max 0 (months_between_firsts e s)

/-- The `Person` dataclass. -/
structure Person where
  name : String
  dob : Date
  life_age : ℤ
  claim_age_years : ℤ := 67
  claim_age_months : ℤ := 0
  pia_at_fra : ℚ := 0
  deriving DecidableEq, Repr

instance : Inhabited Person := ⟨⟨"", ⟨1, 1, 1⟩, 0, 67, 0, 0⟩⟩

/-- `Person.fra` property. -/
def Person.fra (p : Person) : ℤ × ℤ :=
  fra_for_birth_year p.dob.year

/-- `Person.claim_date` property. -/
def Person.claim_date (p : Person) : Date :=
  add_years_months p.dob p.claim_age_years p.claim_age_months

/-- `Person.eol_date` property (lives THROUGH `life_age`). -/
def Person.eol_date (p : Person) : Date :=
  safe_eol_date p.dob (p.life_age + 1)

/-- `worker_monthly_at_claim`. -/
def worker_monthly_at_claim (p : Person) : ℚ :=
  retirement_adjustment p.pia_at_fra
    (months_between p.claim_age_years p.claim_age_months p.fra.1 p.fra.2)

/-- The decedent's monthly benefit as of the death date: the middle block
of `survivor_annual` (already-claimed amount, else delayed credits capped
at `(70 - fra_years) * 12`, else raw PIA). -/
def decedentMonthlyAtDeath (decedent : Person) (death_date : Date) : ℚ :=
  if dateLe decedent.claim_date death_date then
    retirement_adjustment decedent.pia_at_fra
      (months_between decedent.claim_age_years decedent.claim_age_months
        decedent.fra.1 decedent.fra.2)
  else
    let age_y := (age_ym decedent.dob death_date).1
    let age_m := (age_ym decedent.dob death_date).2
    let mf := months_between age_y age_m decedent.fra.1 decedent.fra.2
    if 0 ≤ mf then
      retirement_adjustment decedent.pia_at_fra (min mf ((70 - decedent.fra.1) * 12))
    else decedent.pia_at_fra

/-- `survivor_annual`. -/
def survivor_annual (survivor decedent : Person) (death_date : Date) : ℚ :=
  let surv_age_y := (age_ym survivor.dob death_date).1
  let surv_age_m := (age_ym survivor.dob death_date).2
  if surv_age_y * 12 + surv_age_m < 60 * 12 then 0
  else
    let dec_mo := decedentMonthlyAtDeath decedent death_date
    let months_early := max 0 (months_between survivor.fra.1 survivor.fra.2 surv_age_y surv_age_m)
    let factor := survivor_reduction months_early
    let surv_mo := min dec_mo (dec_mo * factor)
    12 * surv_mo

/-- A cell of an output row: a number, or the `None` that
`round(x, 2) or None` produces for a zero amount. -/
inductive CellVal where
  | num (q : ℚ)
  | null
  deriving DecidableEq, Repr

/-- Floor of a rational (kernel-computable: euclidean division of the
numerator by the positive denominator). -/
def ratFloor (q : ℚ) : ℤ :=
  q.num / (q.den : ℤ)

/-- Round-half-to-even to an integer (Python's `round` tie rule). -/
def roundHalfEven (q : ℚ) : ℤ :=
  let f := ratFloor q
  let r := q - (f : ℚ)
  if r < 1 / 2 then f
  else if 1 / 2 < r then f + 1
  else if f % 2 = 0 then f else f + 1

/-- Python `round(x, 2)` over exact rationals. -/
def round2 (q : ℚ) : ℚ :=
  (roundHalfEven (q * 100) : ℚ) / 100

/-- `round(x, 2) or None`: a zero amount is emitted as null. -/
def numOrNull (q : ℚ) : CellVal :=
  if round2 q = 0 then CellVal.null else CellVal.num (round2 q)

/-- Own-benefit window end for person `idx`: own death month, truncated
at the other person's death month in a two-person household. -/
def ownWindowEnd (people : List Person) (idx : ℕ) : Date :=
  let p := people.getD idx default
  if people.length = 2 then
    let other := people.getD (1 - idx) default
    dmin (first_of_month p.eol_date) (first_of_month other.eol_date)
  else first_of_month p.eol_date

/-- Months of own benefit paid to person `idx` inside the year window. -/
def ownMonthsPaid (people : List Person) (idx : ℕ) (year_start year_end_excl : Date) : ℤ :=
  let p := people.getD idx default
  clamp_months_in_year (first_of_month p.claim_date) (ownWindowEnd people idx)
    year_start year_end_excl

/-- Own-benefit amount for person `idx` in the year window. -/
def ownAmount (people : List Person) (idx : ℕ) (year_start year_end_excl : Date) : ℚ :=
  worker_monthly_at_claim (people.getD idx default) *
    ((ownMonthsPaid people idx year_start year_end_excl : ℤ) : ℚ)

/-- Spousal amount for person `idx` (two-person households only): both
must have claimed by year end; base floored at zero; prorated over the
window where both are alive and both have claimed. -/
def spousalAmount (people : List Person) (idx : ℕ) (asof year_start year_end_excl : Date) : ℚ :=
  if people.length = 2 then
    let a := people.getD 0 default
    let b := people.getD 1 default
    let both_alive_end :=
      dmin (dmin (first_of_month a.eol_date) (first_of_month b.eol_date)) year_end_excl
    let selfP := people.getD idx default
    let otherP := people.getD (1 - idx) default
    if dateLe a.claim_date (add_years_months asof 1 0) &&
        dateLe b.claim_date (add_years_months asof 1 0) then
      let base := max 0 (spousal_base otherP.pia_at_fra - selfP.pia_at_fra)
      let months_early := max 0 (-(months_between selfP.claim_age_years selfP.claim_age_months
        selfP.fra.1 selfP.fra.2))
      let sp_mo := base * spousal_reduction months_early
      sp_mo * ((clamp_months_in_year (first_of_month (dmax a.claim_date b.claim_date))
        both_alive_end year_start year_end_excl : ℤ) : ℚ)
    else 0
  else 0

/-- `add_surv`: the survivor-switch contribution added to the survivor's
year total. Full year when the decedent's death month is at or before the
year start; otherwise, when the death falls inside the year, only the
months strictly after the death month through the year end. -/
def survContrib (surv dec : Person) (dec_death_first year_start year_end_excl : Date) : ℚ :=
  if dateLe dec_death_first year_start then
    let months_surv := months_between_firsts year_end_excl year_start
    if 0 < months_surv then
      max (survivor_annual surv dec dec_death_first / 12) (worker_monthly_at_claim surv) *
        ((months_surv : ℤ) : ℚ)
    else 0
  else if dateLt year_start dec_death_first && dateLe dec_death_first year_end_excl then
    let surv_start := add_months dec_death_first 1
    let months_surv := max 0 (months_between_firsts year_end_excl surv_start)
    if 0 < months_surv then
      max (survivor_annual surv dec dec_death_first / 12) (worker_monthly_at_claim surv) *
        ((months_surv : ℤ) : ℚ)
    else 0
  else 0

/-- Year total for person `idx`: own + spousal, plus (two-person
households) the survivor-switch contribution with the other member as
decedent. -/
def totalAmount (people : List Person) (idx : ℕ) (asof year_start year_end_excl : Date) : ℚ :=
  ownAmount people idx year_start year_end_excl +
    spousalAmount people idx asof year_start year_end_excl +
    (if people.length = 2 then
      survContrib (people.getD idx default) (people.getD (1 - idx) default)
        (first_of_month (people.getD (1 - idx) default).eol_date) year_start year_end_excl
    else 0)

/-- One output row of `project_social_security`, for projection year `y`. -/
def yearRow (people : List Person) (start : Date) (y : ℤ) : List (String × CellVal) :=
  let asof := add_years_months start y 0
  let year_start := first_of_month asof
  let year_end_excl := first_of_month (add_years_months asof 1 0)
  ("Year", CellVal.num (y : ℚ)) ::
    (people.enum.flatMap (fun ip =>
      let idx := ip.1
      let p := ip.2
      [(p.name ++ " Own", numOrNull (ownAmount people idx year_start year_end_excl)),
       (p.name ++ " Spousal", numOrNull (spousalAmount people idx asof year_start year_end_excl)),
       (p.name ++ " Total SS", numOrNull (totalAmount people idx asof year_start year_end_excl)),
       (p.name ++ " Monthly@Claim", CellVal.num (round2 (worker_monthly_at_claim p))),
       (p.name ++ " MonthsPaidOwn",
         CellVal.num ((ownMonthsPaid people idx year_start year_end_excl : ℤ) : ℚ)),
       (p.name ++ " OwnCalc", CellVal.num (round2 (worker_monthly_at_claim p *
         ((ownMonthsPaid people idx year_start year_end_excl : ℤ) : ℚ))))]) ++
     [("Household Total SS", CellVal.num (round2
       ((people.enum.map (fun ip => totalAmount people ip.1 asof year_start year_end_excl)).sum)))])

/-- `project_social_security`: one row per projection year `1..years`;
empty for a non-positive horizon. -/
def project_social_security (people : List Person) (start : Date) (years : ℤ) :
    List (List (String × CellVal)) :=
  if years ≤ 0 then []
  else (List.range years.toNat).map (fun (i : ℕ) => yearRow people start ((i : ℤ) + 1))

/-- Absolute month number of a date (`year * 12 + month`);
`months_between_firsts a b` is `monthIndex a - monthIndex b`. -/
def monthIndex (d : Date) : ℤ :=
  d.year * 12 + d.month

/-- Sample household member used to instantiate theorems on concrete data. -/
def personA : Person :=
  ⟨"A", ⟨1959, 6, 11⟩, 85, 66, 10, 3500⟩

/-- Second sample household member (leap-day birthday, dies first). -/
def personB : Person :=
  ⟨"B", ⟨1960, 2, 29⟩, 70, 67, 0, 2000⟩

/-- Sample projection start date. -/
def startDate0 : Date :=
  ⟨2025, 8, 9⟩

/-! ### Calendar lemmas -/

lemma months_between_firsts_eq (a b : Date) :
    months_between_firsts a b = monthIndex a - monthIndex b := by
  simp [months_between_firsts, months_between, monthIndex]

lemma monthIndex_first_of_month (d : Date) :
    monthIndex (first_of_month d) = monthIndex d := rfl

lemma monthIndex_add_years_months (d : Date) (y m : ℤ) :
    monthIndex (add_years_months d y m) = monthIndex d + 12 * y + m := by
  simp only [add_years_months, monthIndex]
  omega

lemma monthIndex_add_months (d : Date) (m : ℤ) :
    monthIndex (add_months d m) = monthIndex d + m := by
  simp only [add_months, monthIndex]
  omega

lemma add_years_months_month_bounds (d : Date) (y m : ℤ) :
    1 ≤ (add_years_months d y m).month ∧ (add_years_months d y m).month ≤ 12 := by
  simp only [add_years_months]
  omega

lemma add_months_month_bounds (d : Date) (m : ℤ) :
    1 ≤ (add_months d m).month ∧ (add_months d m).month ≤ 12 := by
  simp only [add_months]
  omega

lemma monthIndex_le_of_dateLt {a b : Date} (ha1 : 1 ≤ a.month) (ha2 : a.month ≤ 12)
    (hb1 : 1 ≤ b.month) (hb2 : b.month ≤ 12) (h : dateLt a b = true) :
    monthIndex a ≤ monthIndex b := by
  simp only [dateLt, decide_eq_true_eq] at h
  simp only [monthIndex]
  omega

lemma monthIndex_ge_of_not_dateLt {a b : Date} (ha1 : 1 ≤ a.month) (ha2 : a.month ≤ 12)
    (hb1 : 1 ≤ b.month) (hb2 : b.month ≤ 12) (h : dateLt a b = false) :
    monthIndex b ≤ monthIndex a := by
  simp only [dateLt, decide_eq_false_iff_not] at h
  simp only [monthIndex]
  omega

lemma monthIndex_dmax {a b : Date} (ha1 : 1 ≤ a.month) (ha2 : a.month ≤ 12)
    (hb1 : 1 ≤ b.month) (hb2 : b.month ≤ 12) :
    monthIndex (dmax a b) = max (monthIndex a) (monthIndex b) := by
  unfold dmax
  cases h : dateLt a b with
  | true =>
    rw [if_pos rfl]
    exact (max_eq_right (monthIndex_le_of_dateLt ha1 ha2 hb1 hb2 h)).symm
  | false =>
    rw [if_neg Bool.false_ne_true]
    exact (max_eq_left (monthIndex_ge_of_not_dateLt ha1 ha2 hb1 hb2 h)).symm

lemma monthIndex_dmin {a b : Date} (ha1 : 1 ≤ a.month) (ha2 : a.month ≤ 12)
    (hb1 : 1 ≤ b.month) (hb2 : b.month ≤ 12) :
    monthIndex (dmin a b) = min (monthIndex a) (monthIndex b) := by
  unfold dmin
  cases h : dateLt b a with
  | true =>
    rw [if_pos rfl]
    exact (min_eq_right (monthIndex_le_of_dateLt hb1 hb2 ha1 ha2 h)).symm
  | false =>
    rw [if_neg Bool.false_ne_true]
    exact (min_eq_left (monthIndex_ge_of_not_dateLt hb1 hb2 ha1 ha2 h)).symm

lemma clamp_months_in_year_eq {s e ws we : Date}
    (hs1 : 1 ≤ s.month) (hs2 : s.month ≤ 12) (he1 : 1 ≤ e.month) (he2 : e.month ≤ 12)
    (hw1 : 1 ≤ ws.month) (hw2 : ws.month ≤ 12) (hx1 : 1 ≤ we.month) (hx2 : we.month ≤ 12) :
    clamp_months_in_year s e ws we =
      max 0 (min (monthIndex e) (monthIndex we) - max (monthIndex s) (monthIndex ws)) := by
  unfold clamp_months_in_year
  simp only [months_between_firsts_eq, monthIndex_first_of_month,
    monthIndex_dmin he1 he2 hx1 hx2, monthIndex_dmax hs1 hs2 hw1 hw2]

lemma monthLen_ge (y m : ℤ) : 28 ≤ monthLen y m := by
  unfold monthLen
  split_ifs <;> norm_num

lemma add_months_valid (d : Date) (m : ℤ) (h : d.Valid) : (add_months d m).Valid := by
  obtain ⟨h1, h2, h3, h4⟩ := h
  simp only [Date.Valid, add_months]
  refine ⟨by omega, by omega, ?_, min_le_right _ _⟩
  exact le_min h3 (le_trans (by norm_num) (monthLen_ge _ _))

lemma add_years_months_valid (d : Date) (y m : ℤ) (h : d.Valid) :
    (add_years_months d y m).Valid := by
  obtain ⟨h1, h2, h3, h4⟩ := h
  simp only [Date.Valid, add_years_months]
  refine ⟨by omega, by omega, ?_, min_le_right _ _⟩
  exact le_min h3 (le_trans (by norm_num) (monthLen_ge _ _))

lemma safe_eol_date_valid (dob : Date) (la : ℤ) (h : dob.Valid) :
    (safe_eol_date dob la).Valid := by
  obtain ⟨h1, h2, h3, h4⟩ := h
  simp only [Date.Valid, safe_eol_date]
  split_ifs with hd
  · exact ⟨h1, h2, le_trans (by norm_num) (monthLen_ge _ _), le_refl _⟩
  · exact ⟨h1, h2, h3, le_of_not_lt hd⟩

lemma clamp_months_in_year_nonneg (s e ws we : Date) :
    0 ≤ clamp_months_in_year s e ws we :=
  le_max_left 0 _

/-! ### Claim theorems (first batch) -/

/-- C2: `retirement_adjustment` returns the PIA unchanged at FRA; for early
claiming it applies the 5/9%-per-month (first 36 months) plus 5/12%-per-month
reduction floored at zero; for delayed claiming it applies a 2/3%-per-month
credit capped at 48 months regardless of the person's actual FRA. -/
theorem retirement_adjustment_spec (pia : ℚ) (m : ℤ) (hpia : 0 ≤ pia) :
    retirement_adjustment pia 0 = pia ∧
    (m < 0 → retirement_adjustment pia m =
      pia * max 0 (1 - (((min (-m) 36 : ℤ) : ℚ) * (5 / 900) +
        ((max (-m - 36) 0 : ℤ) : ℚ) * (5 / 1200)))) ∧
    (0 < m → retirement_adjustment pia m =
      pia * (1 + ((min m 48 : ℤ) : ℚ) * (2 / 300))) := by
  refine ⟨by simp [retirement_adjustment], ?_, ?_⟩
  · intro hm
    rw [retirement_adjustment]
    rw [if_neg (by omega), if_pos hm]
  · intro hm
    rw [retirement_adjustment]
    rw [if_neg (by omega), if_neg (by omega)]
    have h48 : (12 * 4 : ℤ) = 48 := by norm_num
    rw [h48]
    ring

/-- Witness for C2 at pia = 3500 with m = -2 and m = 50. -/
theorem retirement_adjustment_spec_witness :
    retirement_adjustment 3500 0 = 3500 ∧
    retirement_adjustment 3500 (-2) =
      3500 * max 0 (1 - (((min (-(-2)) 36 : ℤ) : ℚ) * (5 / 900) +
        ((max (-(-2) - 36) 0 : ℤ) : ℚ) * (5 / 1200))) ∧
    retirement_adjustment 3500 50 =
      3500 * (1 + ((min 50 48 : ℤ) : ℚ) * (2 / 300)) :=
  ⟨(retirement_adjustment_spec 3500 (-2) (by norm_num)).1,
    (retirement_adjustment_spec 3500 (-2) (by norm_num)).2.1 (by norm_num),
    (retirement_adjustment_spec 3500 50 (by norm_num)).2.2 (by norm_num)⟩

/-- C10: `retirement_adjustment` is homogeneous in its PIA argument — the
result is the PIA times a factor depending only on the months-from-FRA. -/
theorem retirement_adjustment_homogeneous (c pia : ℚ) (m : ℤ) (hc : 0 ≤ c)
    (hpia : 0 ≤ pia) :
    retirement_adjustment (c * pia) m = c * retirement_adjustment pia m := by
  unfold retirement_adjustment
  split_ifs <;> ring

/-- Witness for C10 at c = 2, pia = 3500, m = -40. -/
theorem retirement_adjustment_homogeneous_witness :
    retirement_adjustment (2 * 3500) (-40) = 2 * retirement_adjustment 3500 (-40) :=
  retirement_adjustment_homogeneous 2 3500 (-40) (by norm_num) (by norm_num)

/-- C4 counterexample: for `asof` five days before `dob` in the same month,
`age_ym` returns (0, 11), not (0, 0). -/
theorem age_ym_before_dob_counterexample :
    dateLt ⟨2000, 6, 10⟩ ⟨2000, 6, 15⟩ = true ∧
    age_ym ⟨2000, 6, 15⟩ ⟨2000, 6, 10⟩ ≠ (0, 0) := by
  decide

/-- C4 (amended): `age_ym` returns years ≥ 0 and months in [0, 11], each
component floored at zero independently; when `asof < dob` the years
component is 0, but the months component may be nonzero. -/
theorem age_ym_range (dob asof : Date) (h1 : 1 ≤ dob.month) (h2 : dob.month ≤ 12)
    (h3 : 1 ≤ asof.month) (h4 : asof.month ≤ 12) :
    0 ≤ (age_ym dob asof).1 ∧ 0 ≤ (age_ym dob asof).2 ∧ (age_ym dob asof).2 ≤ 11 ∧
    (dateLt asof dob = true → (age_ym dob asof).1 = 0) := by
  unfold age_ym
  simp only [dateLt, decide_eq_true_eq]
  split_ifs <;> simp <;> omega

/-- Witness for C4 (amended) at dob 1959-06-11, asof 1959-01-01. -/
theorem age_ym_range_witness :
    0 ≤ (age_ym ⟨1959, 6, 11⟩ ⟨1959, 1, 1⟩).1 ∧
    0 ≤ (age_ym ⟨1959, 6, 11⟩ ⟨1959, 1, 1⟩).2 ∧
    (age_ym ⟨1959, 6, 11⟩ ⟨1959, 1, 1⟩).2 ≤ 11 ∧
    (age_ym ⟨1959, 6, 11⟩ ⟨1959, 1, 1⟩).1 = 0 := by
  have h := age_ym_range ⟨1959, 6, 11⟩ ⟨1959, 1, 1⟩ (by norm_num) (by norm_num)
    (by norm_num) (by norm_num)
  exact ⟨h.1, h.2.1, h.2.2.1, h.2.2.2 (by decide)⟩

/-- C9: the projection is a pure function of its explicit arguments — equal
people, start date, and horizon give equal output rows (the embedding reads
no ambient clock and no global state). -/
theorem project_deterministic (people₁ people₂ : List Person) (s₁ s₂ : Date)
    (y₁ y₂ : ℤ) (hp : people₁ = people₂) (hs : s₁ = s₂) (hy : y₁ = y₂) :
    project_social_security people₁ s₁ y₁ = project_social_security people₂ s₂ y₂ := by
  rw [hp, hs, hy]

/-- Witness for C9 on the sample household. -/
theorem project_deterministic_witness :
    project_social_security [personA, personB] startDate0 3 =
      project_social_security [personA, personB] startDate0 3 :=
  project_deterministic [personA, personB] [personA, personB] startDate0 startDate0 3 3
    rfl rfl rfl

/-! ### Nonnegativity lemmas -/

lemma retirement_adjustment_nonneg (pia : ℚ) (m : ℤ) (h : 0 ≤ pia) :
    0 ≤ retirement_adjustment pia m := by
  unfold retirement_adjustment
  split_ifs with h0 hneg
  · exact h
  · exact mul_nonneg h (le_max_left 0 _)
  · apply mul_nonneg h
    have hm : (0 : ℤ) ≤ min m (12 * 4) := by omega
    have hq : (0 : ℚ) ≤ ((min m (12 * 4) : ℤ) : ℚ) := by exact_mod_cast hm
    exact add_nonneg (by norm_num) (mul_nonneg (by norm_num) hq)

lemma spousal_reduction_nonneg (m : ℤ) : 0 ≤ spousal_reduction m := by
  unfold spousal_reduction
  split_ifs
  · norm_num
  · exact le_max_left 0 _

lemma survivor_reduction_nonneg (m : ℤ) : 0 ≤ survivor_reduction m := by
  unfold survivor_reduction
  split_ifs
  · norm_num
  · exact le_trans (by norm_num) (le_max_left (715 / 1000) _)

lemma worker_monthly_at_claim_nonneg (p : Person) (h : 0 ≤ p.pia_at_fra) :
    0 ≤ worker_monthly_at_claim p :=
  retirement_adjustment_nonneg _ _ h

lemma decedentMonthlyAtDeath_nonneg (d : Person) (dd : Date) (h : 0 ≤ d.pia_at_fra) :
    0 ≤ decedentMonthlyAtDeath d dd := by
  simp only [decedentMonthlyAtDeath]
  split_ifs
  · exact retirement_adjustment_nonneg _ _ h
  · exact retirement_adjustment_nonneg _ _ h
  · exact h

lemma survivor_annual_nonneg (s d : Person) (dd : Date) (h : 0 ≤ d.pia_at_fra) :
    0 ≤ survivor_annual s d dd := by
  simp only [survivor_annual]
  split_ifs
  · exact le_refl 0
  · have hdec := decedentMonthlyAtDeath_nonneg d dd h
    have hfac := survivor_reduction_nonneg
      (max 0 (months_between s.fra.1 s.fra.2 (age_ym s.dob dd).1 (age_ym s.dob dd).2))
    have hmin : 0 ≤ min (decedentMonthlyAtDeath d dd)
        (decedentMonthlyAtDeath d dd *
          survivor_reduction
            (max 0 (months_between s.fra.1 s.fra.2 (age_ym s.dob dd).1 (age_ym s.dob dd).2))) :=
      le_min hdec (mul_nonneg hdec hfac)
    linarith

lemma survivor_annual_le (s d : Person) (dd : Date) (h : 0 ≤ d.pia_at_fra) :
    survivor_annual s d dd ≤ 12 * decedentMonthlyAtDeath d dd := by
  simp only [survivor_annual]
  split_ifs
  · have hdec := decedentMonthlyAtDeath_nonneg d dd h
    linarith
  · have hmin : min (decedentMonthlyAtDeath d dd)
        (decedentMonthlyAtDeath d dd *
          survivor_reduction
            (max 0 (months_between s.fra.1 s.fra.2 (age_ym s.dob dd).1 (age_ym s.dob dd).2))) ≤
        decedentMonthlyAtDeath d dd := min_le_left _ _
    linarith

/-! ### Claim theorems (second batch) -/

/-- C3: `survivor_annual` returns 0 below the 720-month (60-year) survivor
age gate; otherwise it is nonnegative and at most 12 times the decedent's
at-death monthly amount (the survivor reduction can only shrink the base). -/
theorem survivor_annual_bounds (s d : Person) (dd : Date) (hpia : 0 ≤ d.pia_at_fra) :
    ((age_ym s.dob dd).1 * 12 + (age_ym s.dob dd).2 < 720 → survivor_annual s d dd = 0) ∧
    0 ≤ survivor_annual s d dd ∧
    survivor_annual s d dd ≤ 12 * decedentMonthlyAtDeath d dd := by
  refine ⟨?_, survivor_annual_nonneg s d dd hpia, survivor_annual_le s d dd hpia⟩
  intro hlt
  simp only [survivor_annual]
  split_ifs with hc
  · rfl
  · exact (hc (by omega)).elim

/-- Witness for C3: the gate case (A aged below 60 in 2010) and the bound
case (A aged past 60 at B's 2031 death month). -/
theorem survivor_annual_bounds_witness :
    survivor_annual personA personB ⟨2010, 1, 1⟩ = 0 ∧
    0 ≤ survivor_annual personA personB ⟨2031, 2, 1⟩ ∧
    survivor_annual personA personB ⟨2031, 2, 1⟩ ≤
      12 * decedentMonthlyAtDeath personB ⟨2031, 2, 1⟩ :=
  ⟨(survivor_annual_bounds personA personB ⟨2010, 1, 1⟩ (by decide)).1 (by decide),
    (survivor_annual_bounds personA personB ⟨2031, 2, 1⟩ (by decide)).2⟩

/-- C6: the derived-date computations are total on valid dates — month
arithmetic and `safe_eol_date` clamp the day-of-month to the last valid day
of the target month (Jan 31 + 1 month is Feb 28, or Feb 29 in a leap year),
`claim_date` and `eol_date` always yield valid dates, and the month-overlap
count saturates at 0 instead of going negative. -/
theorem calendar_arithmetic_total :
    (∀ (d : Date) (m : ℤ), d.Valid → (add_months d m).Valid) ∧
    (∀ (d : Date) (y m : ℤ), d.Valid → (add_years_months d y m).Valid) ∧
    (∀ (dob : Date) (la : ℤ), dob.Valid → (safe_eol_date dob la).Valid) ∧
    (∀ p : Person, p.dob.Valid → p.claim_date.Valid ∧ p.eol_date.Valid) ∧
    (∀ s e ws we : Date, 0 ≤ clamp_months_in_year s e ws we) ∧
    add_months ⟨2025, 1, 31⟩ 1 = ⟨2025, 2, 28⟩ ∧
    add_months ⟨2024, 1, 31⟩ 1 = ⟨2024, 2, 29⟩ := by
  refine ⟨add_months_valid, add_years_months_valid, safe_eol_date_valid, ?_,
    clamp_months_in_year_nonneg, by decide, by decide⟩
  intro p h
  exact ⟨add_years_months_valid _ _ _ h, safe_eol_date_valid _ _ h⟩

/-- Witness for C6 on the leap-day person and concrete dates. -/
theorem calendar_arithmetic_total_witness :
    Date.Valid ⟨2024, 2, 29⟩ ∧ (add_months ⟨2024, 2, 29⟩ 12).Valid ∧
    (safe_eol_date ⟨2024, 2, 29⟩ 71).Valid ∧
    personB.claim_date.Valid ∧ personB.eol_date.Valid :=
  ⟨by decide, calendar_arithmetic_total.1 ⟨2024, 2, 29⟩ 12 (by decide),
    calendar_arithmetic_total.2.2.1 ⟨2024, 2, 29⟩ 71 (by decide),
    (calendar_arithmetic_total.2.2.2.1 personB (by decide)).1,
    (calendar_arithmetic_total.2.2.2.1 personB (by decide)).2⟩

/-- C8: a non-positive horizon yields the empty row list (not an error);
a positive horizon yields exactly `years` rows whose `Year` cells are
1, 2, …, `years` in order. -/
theorem project_horizon_rows :
    (∀ (people : List Person) (start : Date) (years : ℤ), years ≤ 0 →
      project_social_security people start years = []) ∧
    (∀ (people : List Person) (start : Date) (years : ℤ), 0 < years →
      ((project_social_security people start years).length : ℤ) = years ∧
      ∀ i : ℕ, i < (project_social_security people start years).length →
        (((project_social_security people start years).getD i []).head? =
          some ("Year", CellVal.num ((i : ℚ) + 1)))) := by
  constructor
  · intro people start years hy
    simp only [project_social_security, if_pos hy]
  · intro people start years hy
    have hne : ¬ years ≤ 0 := by omega
    constructor
    · simp only [project_social_security, if_neg hne, List.length_map, List.length_range]
      omega
    · intro i hi
      have hi2 : i < years.toNat := by
        simpa [project_social_security, if_neg hne] using hi
      simp only [project_social_security, if_neg hne, List.getD_eq_getElem?_getD,
        List.getElem?_map, List.getElem?_range hi2, Option.map_some', Option.getD_some,
        yearRow, List.head?_cons, Option.some.injEq, Prod.mk.injEq, CellVal.num.injEq,
        true_and]
      push_cast
      ring

/-- Witness for C8: horizon 0 gives no rows; horizon 2 gives two rows. -/
theorem project_horizon_rows_witness :
    project_social_security [personA] startDate0 0 = [] ∧
    ((project_social_security [personA] startDate0 2).length : ℤ) = 2 :=
  ⟨project_horizon_rows.1 [personA] startDate0 0 (by norm_num),
    (project_horizon_rows.2 [personA] startDate0 2 (by norm_num)).1⟩

/-! ### Row-shape and nonnegativity of the projection output -/

lemma enumFrom_flatMap_snd {α β : Type _} (n : ℕ) (l : List α) (f : α → List β) :
    (l.enumFrom n).flatMap (fun ip => f ip.2) = l.flatMap f := by
  induction l generalizing n with
  | nil => rfl
  | cons a t ih => simp [List.enumFrom, List.flatMap_cons, ih]

lemma enum_flatMap_snd {α β : Type _} (l : List α) (f : α → List β) :
    l.enum.flatMap (fun ip => f ip.2) = l.flatMap f :=
  enumFrom_flatMap_snd 0 l f

/-- C5 counterexample: a one-person projection row carries debug columns
(`Monthly@Claim`, `MonthsPaidOwn`, `OwnCalc`) beyond the claimed set. -/
theorem project_columns_counterexample :
    ((project_social_security [personA] startDate0 1).headD []).map Prod.fst ≠
      ["Year", "A Own", "A Spousal", "A Total SS", "Household Total SS"] := by
  decide

/-- C5 (amended): every projection row has exactly the columns `Year`,
then per person `Own`, `Spousal`, `Total SS` plus the three debug columns
`Monthly@Claim`, `MonthsPaidOwn`, `OwnCalc`, then `Household Total SS`;
each value is either a number or the null that stands for an absent
(zero-or-inapplicable) amount. -/
theorem project_columns (people : List Person) (start : Date) (years : ℤ) :
    ∀ row ∈ project_social_security people start years,
      row.map Prod.fst =
        "Year" :: ((people.flatMap (fun p =>
          [p.name ++ " Own", p.name ++ " Spousal", p.name ++ " Total SS",
           p.name ++ " Monthly@Claim", p.name ++ " MonthsPaidOwn",
           p.name ++ " OwnCalc"])) ++ ["Household Total SS"]) ∧
      ∀ cell ∈ row, (∃ q : ℚ, cell.2 = CellVal.num q) ∨ cell.2 = CellVal.null := by
  intro row hrow
  constructor
  · rw [project_social_security] at hrow
    split at hrow
    · simp at hrow
    · obtain ⟨i, hi, rfl⟩ := List.mem_map.mp hrow
      simp only [yearRow, List.map_cons, List.map_append, List.map_flatMap, List.map_nil,
        List.cons.injEq, true_and]
      rw [enum_flatMap_snd people (fun p =>
        [p.name ++ " Own", p.name ++ " Spousal", p.name ++ " Total SS",
         p.name ++ " Monthly@Claim", p.name ++ " MonthsPaidOwn", p.name ++ " OwnCalc"])]
  · intro cell hcell
    rcases hcv : cell.2 with q | _
    · exact Or.inl ⟨q, rfl⟩
    · exact Or.inr rfl

/-- Witness for C5 (amended) on a one-person household. -/
theorem project_columns_witness :
    ((project_social_security [personA] startDate0 1).headD []).map Prod.fst =
      "Year" :: (([personA].flatMap (fun p =>
        [p.name ++ " Own", p.name ++ " Spousal", p.name ++ " Total SS",
         p.name ++ " Monthly@Claim", p.name ++ " MonthsPaidOwn",
         p.name ++ " OwnCalc"])) ++ ["Household Total SS"]) := by
  have hproj : project_social_security [personA] startDate0 1 =
      [yearRow [personA] startDate0 1] := rfl
  refine (project_columns [personA] startDate0 1 _ ?_).1
  rw [hproj]
  simp

lemma ratFloor_nonneg (q : ℚ) (h : 0 ≤ q) : 0 ≤ ratFloor q :=
  Int.ediv_nonneg (Rat.num_nonneg.mpr h) (by positivity)

lemma roundHalfEven_nonneg (q : ℚ) (h : 0 ≤ q) : 0 ≤ roundHalfEven q := by
  simp only [roundHalfEven]
  have hf := ratFloor_nonneg q h
  split_ifs <;> omega

lemma round2_nonneg (q : ℚ) (h : 0 ≤ q) : 0 ≤ round2 q := by
  unfold round2
  have h1 : 0 ≤ roundHalfEven (q * 100) := roundHalfEven_nonneg _ (by positivity)
  have h2 : (0 : ℚ) ≤ (roundHalfEven (q * 100) : ℚ) := by exact_mod_cast h1
  positivity

lemma numOrNull_nonneg {v q : ℚ} (hv : 0 ≤ v) (h : numOrNull v = CellVal.num q) :
    0 ≤ q := by
  unfold numOrNull at h
  by_cases hz : round2 v = 0
  · rw [if_pos hz] at h
    exact absurd h (by simp)
  · rw [if_neg hz] at h
    rw [CellVal.num.injEq] at h
    rw [← h]
    exact round2_nonneg v hv

lemma getD_pia_nonneg (people : List Person)
    (h : ∀ p ∈ people, 0 ≤ p.pia_at_fra) (idx : ℕ) :
    0 ≤ (people.getD idx default).pia_at_fra := by
  rcases lt_or_ge idx people.length with hl | hl
  · rw [List.getD_eq_getElem people default hl]
    exact h _ (List.getElem_mem hl)
  · rw [List.getD_eq_default people default hl]
    norm_num [default]

lemma ownMonthsPaid_nonneg (people : List Person) (idx : ℕ) (ys ye : Date) :
    0 ≤ ownMonthsPaid people idx ys ye :=
  le_max_left 0 _

lemma ownAmount_nonneg (people : List Person) (idx : ℕ) (ys ye : Date)
    (h : ∀ p ∈ people, 0 ≤ p.pia_at_fra) :
    0 ≤ ownAmount people idx ys ye := by
  apply mul_nonneg (worker_monthly_at_claim_nonneg _ (getD_pia_nonneg people h idx))
  exact_mod_cast ownMonthsPaid_nonneg people idx ys ye

lemma spousalAmount_nonneg (people : List Person) (idx : ℕ) (asof ys ye : Date) :
    0 ≤ spousalAmount people idx asof ys ye := by
  simp only [spousalAmount]
  split_ifs
  · apply mul_nonneg (mul_nonneg (le_max_left 0 _) (spousal_reduction_nonneg _))
    exact_mod_cast clamp_months_in_year_nonneg _ _ _ _
  · exact le_refl 0
  · exact le_refl 0

lemma survContrib_nonneg (surv dec : Person) (dd ys ye : Date)
    (hs : 0 ≤ surv.pia_at_fra) :
    0 ≤ survContrib surv dec dd ys ye := by
  have hmax : 0 ≤ max (survivor_annual surv dec dd / 12) (worker_monthly_at_claim surv) :=
    le_trans (worker_monthly_at_claim_nonneg surv hs) (le_max_right _ _)
  simp only [survContrib]
  split_ifs with h1 h2 h3 h4
  · exact mul_nonneg hmax (by exact_mod_cast le_of_lt h2)
  · exact le_refl 0
  · exact mul_nonneg hmax (by exact_mod_cast le_of_lt h4)
  · exact le_refl 0
  · exact le_refl 0

lemma totalAmount_nonneg (people : List Person) (idx : ℕ) (asof ys ye : Date)
    (h : ∀ p ∈ people, 0 ≤ p.pia_at_fra) :
    0 ≤ totalAmount people idx asof ys ye := by
  unfold totalAmount
  apply add_nonneg (add_nonneg (ownAmount_nonneg people idx ys ye h)
    (spousalAmount_nonneg people idx asof ys ye))
  split_ifs
  · exact survContrib_nonneg _ _ _ _ _ (getD_pia_nonneg people h idx)
  · exact le_refl 0

/-- C7: with all PIAs nonnegative, every numeric cell of every projection
row is nonnegative — the floored subtractions never let a negative amount
reach the output. -/
theorem project_nonneg (people : List Person) (start : Date) (years : ℤ)
    (hpia : ∀ p ∈ people, 0 ≤ p.pia_at_fra) :
    ∀ row ∈ project_social_security people start years, ∀ cell ∈ row, ∀ q : ℚ,
      cell.2 = CellVal.num q → 0 ≤ q := by
  intro row hrow cell hcell q hq
  rw [project_social_security] at hrow
  split at hrow
  · simp at hrow
  · obtain ⟨i, hi, rfl⟩ := List.mem_map.mp hrow
    simp only [yearRow, List.mem_cons, List.mem_append, List.mem_flatMap,
      List.not_mem_nil, or_false] at hcell
    rcases hcell with hYear | ⟨⟨ip, hip, hblock⟩ | hHH⟩
    · rw [hYear] at hq
      simp only [CellVal.num.injEq] at hq
      rw [← hq]
      positivity
    · have hp : ip.2 ∈ people := List.snd_mem_of_mem_enum hip
      rcases hblock with h | h | h | h | h | h <;> rw [h] at hq
      · exact numOrNull_nonneg (ownAmount_nonneg people ip.1 _ _ hpia) hq
      · exact numOrNull_nonneg (spousalAmount_nonneg people ip.1 _ _ _) hq
      · exact numOrNull_nonneg (totalAmount_nonneg people ip.1 _ _ _ hpia) hq
      · simp only [CellVal.num.injEq] at hq
        rw [← hq]
        exact round2_nonneg _ (worker_monthly_at_claim_nonneg _ (hpia _ hp))
      · simp only [CellVal.num.injEq] at hq
        rw [← hq]
        exact_mod_cast ownMonthsPaid_nonneg people ip.1 _ _
      · simp only [CellVal.num.injEq] at hq
        rw [← hq]
        apply round2_nonneg
        apply mul_nonneg (worker_monthly_at_claim_nonneg _ (hpia _ hp))
        exact_mod_cast ownMonthsPaid_nonneg people ip.1 _ _
    · rw [hHH] at hq
      simp only [CellVal.num.injEq] at hq
      rw [← hq]
      apply round2_nonneg
      apply List.sum_nonneg
      intro x hx
      obtain ⟨ip, hip, rfl⟩ := List.mem_map.mp hx
      exact totalAmount_nonneg people ip.1 _ _ _ hpia

/-- Witness for C7: the theorem applied to the first row's `Year` cell of
the sample two-person household. -/
theorem project_nonneg_witness : 0 ≤ (((1 : ℤ) : ℚ)) := by
  have hproj : project_social_security [personA, personB] startDate0 1 =
      [yearRow [personA, personB] startDate0 1] := rfl
  exact project_nonneg [personA, personB] startDate0 1 (by decide)
    (yearRow [personA, personB] startDate0 1)
    (by rw [hproj]; exact List.mem_cons_self _ _)
    ("Year", CellVal.num ((1 : ℤ) : ℚ))
    (List.mem_cons_self _ _)
    ((1 : ℤ) : ℚ) rfl

/-! ### Survivor-switch accrual (C1) -/

lemma eol_date_month (p : Person) : p.eol_date.month = p.dob.month := by
  simp only [Person.eol_date, safe_eol_date]
  split_ifs <;> rfl

lemma claim_date_month_bounds (p : Person) :
    1 ≤ p.claim_date.month ∧ p.claim_date.month ≤ 12 :=
  add_years_months_month_bounds _ _ _

lemma dmin_month_bounds {x y : Date} (hx1 : 1 ≤ x.month) (hx2 : x.month ≤ 12)
    (hy1 : 1 ≤ y.month) (hy2 : y.month ≤ 12) :
    1 ≤ (dmin x y).month ∧ (dmin x y).month ≤ 12 := by
  unfold dmin
  split_ifs
  · exact ⟨hy1, hy2⟩
  · exact ⟨hx1, hx2⟩

/-- C1: the survivor switch of the projection year. (i) If the decedent's
death month is at or before the year start, the survivor's contribution is
`max(survivor_annual/12, own monthly-at-claim)` for all 12 months. (ii) If
the death month falls inside the year, that amount accrues only for the
months strictly after the death month up to the year end (the death month
itself pays nothing). (iii)/(iv) both members' own-benefit windows are cut
at the earlier of the two death months, so the decedent's own benefit (and
the survivor's own window) never covers the death month, and (v) the
survivor-switch contribution is exactly what is added to the survivor's
year total. -/
theorem survivor_switch_accrual (a b : Person) (asof : Date)
    (hm1 : 1 ≤ asof.month) (hm2 : asof.month ≤ 12)
    (ha1 : 1 ≤ a.dob.month) (ha2 : a.dob.month ≤ 12)
    (hb1 : 1 ≤ b.dob.month) (hb2 : b.dob.month ≤ 12) :
    (dateLe (first_of_month b.eol_date) (first_of_month asof) = true →
      survContrib a b (first_of_month b.eol_date) (first_of_month asof)
          (first_of_month (add_years_months asof 1 0)) =
        max (survivor_annual a b (first_of_month b.eol_date) / 12)
          (worker_monthly_at_claim a) * 12) ∧
    (dateLe (first_of_month b.eol_date) (first_of_month asof) = false →
      dateLe (first_of_month b.eol_date) (first_of_month (add_years_months asof 1 0)) = true →
      survContrib a b (first_of_month b.eol_date) (first_of_month asof)
          (first_of_month (add_years_months asof 1 0)) =
        max (survivor_annual a b (first_of_month b.eol_date) / 12)
          (worker_monthly_at_claim a) *
          ((max 0 (monthIndex (first_of_month (add_years_months asof 1 0)) -
            (monthIndex (first_of_month b.eol_date) + 1)) : ℤ) : ℚ)) ∧
    (ownMonthsPaid [a, b] 0 (first_of_month asof)
        (first_of_month (add_years_months asof 1 0)) =
      max 0 (min (min (monthIndex (first_of_month a.eol_date))
            (monthIndex (first_of_month b.eol_date)))
          (monthIndex (first_of_month (add_years_months asof 1 0))) -
        max (monthIndex (first_of_month a.claim_date)) (monthIndex (first_of_month asof)))) ∧
    (ownMonthsPaid [a, b] 1 (first_of_month asof)
        (first_of_month (add_years_months asof 1 0)) =
      max 0 (min (min (monthIndex (first_of_month a.eol_date))
            (monthIndex (first_of_month b.eol_date)))
          (monthIndex (first_of_month (add_years_months asof 1 0))) -
        max (monthIndex (first_of_month b.claim_date)) (monthIndex (first_of_month asof)))) ∧
    (totalAmount [a, b] 0 asof (first_of_month asof)
        (first_of_month (add_years_months asof 1 0)) =
      ownAmount [a, b] 0 (first_of_month asof) (first_of_month (add_years_months asof 1 0)) +
        spousalAmount [a, b] 0 asof (first_of_month asof)
          (first_of_month (add_years_months asof 1 0)) +
        survContrib a b (first_of_month b.eol_date) (first_of_month asof)
          (first_of_month (add_years_months asof 1 0))) := by
  have hye := add_years_months_month_bounds asof 1 0
  have hAe1 : 1 ≤ (first_of_month a.eol_date).month := by
    rw [first_of_month, eol_date_month] at *
    exact ha1
  have hAe2 : (first_of_month a.eol_date).month ≤ 12 := by
    rw [first_of_month, eol_date_month] at *
    exact ha2
  have hBe1 : 1 ≤ (first_of_month b.eol_date).month := by
    rw [first_of_month, eol_date_month] at *
    exact hb1
  have hBe2 : (first_of_month b.eol_date).month ≤ 12 := by
    rw [first_of_month, eol_date_month] at *
    exact hb2
  have h12 : months_between_firsts (first_of_month (add_years_months asof 1 0))
      (first_of_month asof) = 12 := by
    rw [months_between_firsts_eq, monthIndex_first_of_month, monthIndex_first_of_month,
      monthIndex_add_years_months]
    ring
  refine ⟨?_, ?_, ?_, ?_, rfl⟩
  · intro h
    simp only [survContrib]
    rw [if_pos h, h12, if_pos (by norm_num : (0 : ℤ) < 12)]
    norm_num
  · intro h1 h2
    have hlt : dateLt (first_of_month asof) (first_of_month b.eol_date) = true := by
      revert h1
      unfold dateLe
      cases dateLt (first_of_month asof) (first_of_month b.eol_date) <;> simp
    simp only [survContrib]
    rw [if_neg (by simp [h1]), if_pos (by rw [hlt, h2]; rfl)]
    have hms : months_between_firsts (first_of_month (add_years_months asof 1 0))
        (add_months (first_of_month b.eol_date) 1) =
        monthIndex (first_of_month (add_years_months asof 1 0)) -
          (monthIndex (first_of_month b.eol_date) + 1) := by
      rw [months_between_firsts_eq, monthIndex_add_months]
    rw [hms]
    by_cases hM : 0 < max 0 (monthIndex (first_of_month (add_years_months asof 1 0)) -
        (monthIndex (first_of_month b.eol_date) + 1))
    · rw [if_pos hM]
    · rw [if_neg hM]
      have hz : max 0 (monthIndex (first_of_month (add_years_months asof 1 0)) -
          (monthIndex (first_of_month b.eol_date) + 1)) = 0 := by omega
      rw [hz]
      norm_num
  · have hred : ownMonthsPaid [a, b] 0 (first_of_month asof)
        (first_of_month (add_years_months asof 1 0)) =
        clamp_months_in_year (first_of_month a.claim_date)
          (dmin (first_of_month a.eol_date) (first_of_month b.eol_date))
          (first_of_month asof) (first_of_month (add_years_months asof 1 0)) := rfl
    have hdm := dmin_month_bounds hAe1 hAe2 hBe1 hBe2
    rw [hred, clamp_months_in_year_eq
      (show 1 ≤ (first_of_month a.claim_date).month from (claim_date_month_bounds a).1)
      (show (first_of_month a.claim_date).month ≤ 12 from (claim_date_month_bounds a).2)
      hdm.1 hdm.2
      (show 1 ≤ (first_of_month asof).month from hm1)
      (show (first_of_month asof).month ≤ 12 from hm2)
      (show 1 ≤ (first_of_month (add_years_months asof 1 0)).month from hye.1)
      (show (first_of_month (add_years_months asof 1 0)).month ≤ 12 from hye.2),
      monthIndex_dmin hAe1 hAe2 hBe1 hBe2]
  · have hred : ownMonthsPaid [a, b] 1 (first_of_month asof)
        (first_of_month (add_years_months asof 1 0)) =
        clamp_months_in_year (first_of_month b.claim_date)
          (dmin (first_of_month b.eol_date) (first_of_month a.eol_date))
          (first_of_month asof) (first_of_month (add_years_months asof 1 0)) := rfl
    have hdm := dmin_month_bounds hBe1 hBe2 hAe1 hAe2
    rw [hred, clamp_months_in_year_eq
      (show 1 ≤ (first_of_month b.claim_date).month from (claim_date_month_bounds b).1)
      (show (first_of_month b.claim_date).month ≤ 12 from (claim_date_month_bounds b).2)
      hdm.1 hdm.2
      (show 1 ≤ (first_of_month asof).month from hm1)
      (show (first_of_month asof).month ≤ 12 from hm2)
      (show 1 ≤ (first_of_month (add_years_months asof 1 0)).month from hye.1)
      (show (first_of_month (add_years_months asof 1 0)).month ≤ 12 from hye.2),
      monthIndex_dmin hBe1 hBe2 hAe1 hAe2,
      min_comm (monthIndex (first_of_month b.eol_date))
        (monthIndex (first_of_month a.eol_date))]

/-- Witness for C1: B's death month (Feb 2031) is before the year window
starting Aug 2040, so A's survivor switch pays the higher-of amount for all
12 months. -/
theorem survivor_switch_accrual_witness :
    survContrib personA personB (first_of_month personB.eol_date)
        (first_of_month ⟨2040, 8, 9⟩)
        (first_of_month (add_years_months ⟨2040, 8, 9⟩ 1 0)) =
      max (survivor_annual personA personB (first_of_month personB.eol_date) / 12)
        (worker_monthly_at_claim personA) * 12 :=
  (survivor_switch_accrual personA personB ⟨2040, 8, 9⟩ (by norm_num) (by norm_num)
    (by decide) (by decide) (by decide) (by decide)).1 (by decide)
